import Mathlib

/-!
Verification of the exam-analytics data pipeline.

The development shallowly embeds the data model and the operations of the
pipeline: the column derivation of `data/loader.py`, the performance
classification of `data/processor.py`, the aggregate calculations of
`utils/calculations.py`, and the trend and ranking computations of the
API routes.  Dataframe columns become fields of Lean structures; a value
of a nullable column is an `Option`; a column that may be absent from the
source table is wrapped in a further `Option` (outer `none` = column not
present).  Machine floats are modelled by exact rationals, so the float
`NaN`-to-null cleanup step of the loader is the identity here and is noted
where it occurs in the source.  Polars operations whose output order is
left unspecified by the library (group_by and sort without maintain_order)
are modelled relationally: the set of admissible outputs is described by a
predicate rather than by a function.
-/

set_option allowUnsafeReducibility true

attribute [semireducible] Rat.add Rat.sub Rat.mul Rat.div Rat.inv

namespace Spec2Proof

/-! ### String helpers

`data/processor.py` matches result columns with the case-insensitive
regular expressions `(?i)(fail|sus)` and `(?i)not\s*applicable|^na$`.
The helpers below implement lowercase substring search over character
lists, with `\s*` read as a run of ASCII whitespace. -/

/-- ASCII lowercasing of a string, character by character. -/
def strLower (s : String) : String :=
  String.mk (s.toList.map Char.toLower)

/-- Lowercased character list of a string. -/
def lowerList (s : String) : List Char :=
  s.toList.map Char.toLower

/-- Test `startsList pat l`: holds when `pat` is an initial segment of `l`. -/
def startsList : List Char → List Char → Bool
  | [], _ => true
  | _ :: _, [] => false
  | a :: as, b :: bs => a == b && startsList as bs

/-- Test `hasSub pat l`: `pat` occurs as a contiguous sublist of `l`. -/
def hasSub (pat : List Char) : List Char → Bool
  | [] => pat.isEmpty
  | b :: bs => startsList pat (b :: bs) || hasSub pat bs

/-- ASCII whitespace, the characters matched by `\s` in the source regex. -/
def isRegexWS (c : Char) : Bool :=
  c == ' ' || c == '\t' || c == '\n' || c == '\r' ||
    c == Char.ofNat 11 || c == Char.ofNat 12

/-- Match of `not\s*applicable` starting at the head of `l` (lowercase input). -/
def naAt (l : List Char) : Bool :=
  startsList ("not".toList) l &&
    startsList ("applicable".toList) ((l.drop 3).dropWhile isRegexWS)

/-- Search for `not\s*applicable` anywhere in `l` (lowercase input). -/
def hasNaPat : List Char → Bool
  | [] => false
  | b :: bs => naAt (b :: bs) || hasNaPat bs

/-- Check of `processor.add_performance_column`:
`str.contains("(?i)(fail|sus)")` on a null-filled result value. -/
def failCheck (s : String) : Bool :=
  hasSub ("fail".toList) (lowerList s) || hasSub ("sus".toList) (lowerList s)

/-- Check of `processor.add_performance_column`:
`str.contains("(?i)not\s*applicable|^na$")` on a null-filled result value. -/
def naCheck (s : String) : Bool :=
  hasNaPat (lowerList s) || lowerList s == "na".toList

/-- Normalisation `cast(Utf8).fill_null("").str.to_lowercase()` applied to a
nullable text field, as used for `pass_fail` throughout the code base. -/
def pfNorm (v : Option String) : String :=
  strLower (v.getD "")

/-! ### Performance classification (`data/processor.py`, `add_performance_column`)

A `PerfRow` carries exactly the columns the classifier reads.  The four
result columns may be absent from the table (`if col in df.columns`), hence
the doubled `Option`. -/

structure PerfRow where
  pass_fail : Option String := none
  theory_percentage : Option ℚ := none
  practical_percentage : Option ℚ := none
  theory_result : Option (Option String) := none
  theory_internal_result : Option (Option String) := none
  practical_result : Option (Option String) := none
  practical_internal_result : Option (Option String) := none
deriving DecidableEq

/-- Sum `total_pct = theory_percentage.fill_null(0) + practical_percentage.fill_null(0)`. -/
def totalPct (r : PerfRow) : ℚ :=
  r.theory_percentage.getD 0 + r.practical_percentage.getD 0

/-- The base when-then chain of `add_performance_column`:
Fail on `pass_fail == "fail"`, then Distinction on `total_pct >= 80`,
then Pass on `pass_fail == "pass"`, otherwise null. -/
def baseExpr (r : PerfRow) : Option String :=
  if pfNorm r.pass_fail = "fail" then some "Fail"
  else if 80 ≤ totalPct r then some "Distinction"
  else if pfNorm r.pass_fail = "pass" then some "Pass"
  else none

/-- Per-column override condition `~na_check & fail_check` on a null-filled
result value. -/
def overrideCheck (v : Option String) : Bool :=
  failCheck (v.getD "") && !naCheck (v.getD "")

/-- One step of the override loop: a present result column wraps the
accumulated expression in `when(override).then("Fail").otherwise(acc)`;
an absent column leaves it unchanged. -/
def addOverride (acc : Option String) (col : Option (Option String)) : Option String :=
  match col with
  | none => acc
  | some v => if overrideCheck v then some "Fail" else acc

/-- Value of the `performance` column: the override loop runs over
`theory_result, theory_internal_result, practical_result,
practical_internal_result` in order, each present column wrapping the
previous expression, over the base classification. -/
def performance (r : PerfRow) : Option String :=
  addOverride
    (addOverride
      (addOverride
        (addOverride (baseExpr r) r.theory_result)
        r.theory_internal_result)
      r.practical_result)
    r.practical_internal_result

/-- A present result column that triggers the Fail override. -/
def presFail (col : Option (Option String)) : Bool :=
  match col with
  | none => false
  | some v => overrideCheck v

/-- Some present result column of the row triggers the Fail override. -/
def anyResultFail (r : PerfRow) : Bool :=
  presFail r.theory_result || presFail r.theory_internal_result ||
    presFail r.practical_result || presFail r.practical_internal_result

/-- `add_performance_column` on a table: appends the `performance` value to
every row, touching nothing else (`with_columns`). -/
def add_performance_column (rows : List PerfRow) : List (PerfRow × Option String) :=
  rows.map (fun r => (r, performance r))

theorem addOverride_eq (acc : Option String) (col : Option (Option String)) :
    addOverride acc col = if presFail col then some "Fail" else acc := by
  cases col with
  | none => simp [addOverride, presFail]
  | some v => simp [addOverride, presFail]

theorem performance_char (r : PerfRow) :
    performance r = if anyResultFail r then some "Fail" else baseExpr r := by
  unfold performance anyResultFail
  rw [addOverride_eq, addOverride_eq, addOverride_eq, addOverride_eq]
  by_cases h1 : presFail r.theory_result <;>
    by_cases h2 : presFail r.theory_internal_result <;>
      by_cases h3 : presFail r.practical_result <;>
        by_cases h4 : presFail r.practical_internal_result <;>
          simp [h1, h2, h3, h4]

/-! ### Derived metric columns (`data/loader.py`, `_add_derived_columns`)

A raw cell of one of the `*_percentage` columns is either null, a numeric
value, the "Not Applicable" sentinel, or some other non-numeric text.
`safe_percentage` casts to text, strips the sentinel and re-casts to float
with `strict=False`, so everything but a numeric value becomes null. -/

inductive RawCell where
  | null
  | num (q : ℚ)
  | notApplicable
  | other
deriving DecidableEq

/-- Conversion `safe_percentage` of `_add_derived_columns`. -/
def safe_percentage (c : RawCell) : Option ℚ :=
  match c with
  | .num q => some q
  | _ => none

/-- Polars `list.mean`: mean of the non-null elements, null if none. -/
def meanOpt (l : List (Option ℚ)) : Option ℚ :=
  let vs := l.filterMap id
  if vs.length = 0 then none else some (vs.sum / vs.length)

/-- Ratio `when(mx > 0).then(ob / mx * 100).otherwise(None)` with nullable operands. -/
def ratioPct (ob mx : Option ℚ) : Option ℚ :=
  match mx with
  | some m => if 0 < m then ob.map (fun o => o / m * 100) else none
  | none => none

/-- Null-propagating elementwise addition of two nullable columns. -/
def optAdd (a b : Option ℚ) : Option ℚ :=
  match a, b with
  | some x, some y => some (x + y)
  | _, _ => none

/-- A raw input row for `_add_derived_columns`.  For each source column the
outer `Option` records whether the column is present in the table
(`... in df.columns`), and the inner value is the cell, nullable.  The
`_col` suffix marks pre-existing columns that shadow the derivation
(`cia_theory_avg`, `ese_theory_internal`, `ese_practical_internal`,
`cia_practical_avg`, `total_theory_marks`, `total_practical_marks`).
The field `ese_obtainded` keeps the spelling of the source. -/
structure RawRow where
  student_id : Option String := none
  student_name : Option String := none
  department : Option String := none
  subject : Option String := none
  exam_year : Option ℤ := none
  semester : Option ℤ := none
  pass_fail : Option String := none
  theory_percentage : Option ℚ := none
  practical_percentage : Option ℚ := none
  theory_result : Option (Option String) := none
  theory_internal_result : Option (Option String) := none
  practical_result : Option (Option String) := none
  practical_internal_result : Option (Option String) := none
  cia_theory_cols : Option (List (Option ℚ)) := none
  cia_practical_cols : Option (List (Option ℚ)) := none
  theory_internal_percentage : Option RawCell := none
  practical_internal_percentage : Option RawCell := none
  theory_ese_percentage : Option RawCell := none
  practical_ese_percentage : Option RawCell := none
  theory_credit : Option (Option ℚ) := none
  practical_credit : Option (Option ℚ) := none
  cia_theory_avg_col : Option (Option ℚ) := none
  cia_practical_avg_col : Option (Option ℚ) := none
  ese_theory_internal_col : Option (Option ℚ) := none
  ese_practical_internal_col : Option (Option ℚ) := none
  cia_obtained : Option (Option ℚ) := none
  cia_max : Option (Option ℚ) := none
  ese_obtainded : Option (Option ℚ) := none
  ese_max : Option (Option ℚ) := none
  total_theory_marks_col : Option (Option ℚ) := none
  total_practical_marks_col : Option (Option ℚ) := none
deriving DecidableEq

/-- Gate `when(credit > 0)` on a nullable credit value: a null credit compares
to null, which is falsy, so the `otherwise(None)` branch is taken. -/
def creditPos (c : Option ℚ) : Bool :=
  match c with
  | some v => decide (0 < v)
  | none => false

/-- Column `cia_theory_avg`: mean of existing CIA theory columns when present,
else `theory_internal_percentage` gated by `theory_credit` when that
credit column is present, else the ungated percentage, else a
pre-existing `cia_theory_avg` column, else the legacy
`cia_obtained / cia_max` ratio, else null. -/
def cia_theory_avg (r : RawRow) : Option ℚ :=
  match r.cia_theory_cols with
  | some vals => meanOpt vals
  | none =>
    match r.theory_internal_percentage with
    | some cell =>
      match r.theory_credit with
      | some credit => if creditPos credit then safe_percentage cell else none
      | none => safe_percentage cell
    | none =>
      match r.cia_theory_avg_col with
      | some v => v
      | none =>
        match r.cia_obtained, r.cia_max with
        | some ob, some mx => ratioPct ob mx
        | _, _ => none

/-- Column `cia_practical_avg`: as `cia_theory_avg` on the practical columns;
the legacy obtained/max fallback does not exist on the practical side. -/
def cia_practical_avg (r : RawRow) : Option ℚ :=
  match r.cia_practical_cols with
  | some vals => meanOpt vals
  | none =>
    match r.practical_internal_percentage with
    | some cell =>
      match r.practical_credit with
      | some credit => if creditPos credit then safe_percentage cell else none
      | none => safe_percentage cell
    | none =>
      match r.cia_practical_avg_col with
      | some v => v
      | none => none

/-- Column `ese_theory_internal`: a pre-existing column wins, else
`theory_ese_percentage` gated by `theory_credit`, else ungated, else the
legacy `ese_obtainded / ese_max` ratio, else null. -/
def ese_theory_internal (r : RawRow) : Option ℚ :=
  match r.ese_theory_internal_col with
  | some v => v
  | none =>
    match r.theory_ese_percentage with
    | some cell =>
      match r.theory_credit with
      | some credit => if creditPos credit then safe_percentage cell else none
      | none => safe_percentage cell
    | none =>
      match r.ese_obtainded, r.ese_max with
      | some ob, some mx => ratioPct ob mx
      | _, _ => none

/-- Column `ese_practical_internal`: a pre-existing column wins, else
`practical_ese_percentage` gated by `practical_credit`, else ungated,
else null. -/
def ese_practical_internal (r : RawRow) : Option ℚ :=
  match r.ese_practical_internal_col with
  | some v => v
  | none =>
    match r.practical_ese_percentage with
    | some cell =>
      match r.practical_credit with
      | some credit => if creditPos credit then safe_percentage cell else none
      | none => safe_percentage cell
    | none => none

/-- Column `total_theory_marks = cia_theory_avg + ese_theory_internal` unless the
column already exists; polars elementwise `+` propagates nulls.  The
subsequent NaN-to-null pass of the source is the identity on exact
rationals. -/
def total_theory_marks (r : RawRow) : Option ℚ :=
  match r.total_theory_marks_col with
  | some v => v
  | none => optAdd (cia_theory_avg r) (ese_theory_internal r)

/-- Column `total_practical_marks`, the practical counterpart of
`total_theory_marks`. -/
def total_practical_marks (r : RawRow) : Option ℚ :=
  match r.total_practical_marks_col with
  | some v => v
  | none => optAdd (cia_practical_avg r) (ese_practical_internal r)

/-! ### Aggregate rates (`utils/calculations.py`, `calculate_rates`) -/

/-- The columns `calculate_rates` reads. -/
structure RatesRow where
  student_id : Option String := none
  pass_fail : Option String := none
  performance : Option String := none
deriving DecidableEq

/-- Function `calculate_rates`: the zero-records guard returns five zeros;
otherwise pass and fail counts come from the normalised `pass_fail`
column, the distinction count from the `performance` column (a null
`performance` compares to null, which the boolean sum ignores), and each
rate is `count / total * 100`.  Returns
`(pass_rate, dist_rate, fail_rate, unique_students, total_exams)`. -/
def calculate_rates (data : List RatesRow) : ℚ × ℚ × ℚ × ℕ × ℕ :=
  if data.length = 0 then (0, 0, 0, 0, 0)
  else
    let total := data.length
    let uniq := ((data.map (fun r => r.student_id)).dedup).length
    let passCount := (data.filter (fun r => pfNorm r.pass_fail = "pass")).length
    let failCount := (data.filter (fun r => pfNorm r.pass_fail = "fail")).length
    let distCount := (data.filter (fun r => r.performance = some "Distinction")).length
    ((passCount : ℚ) / total * 100, (distCount : ℚ) / total * 100,
      (failCount : ℚ) / total * 100, uniq, total)

/-! ### Subject difficulty (`utils/calculations.py`, `get_subject_difficulty`
and `api/routes/subjects.py`, `get_difficulty_ranking`)

`get_subject_difficulty` picks the first score column present among a fixed
priority list, drops rows with a null subject or a null score, groups by
subject, and aggregates mean score, row count and pass rate, then sorts by
mean score ascending.  Polars `group_by` without `maintain_order` returns
the groups in an unspecified order, and `sort` without `maintain_order`
leaves the relative order of equal keys unspecified; the ranking is
therefore modelled as a relation between the input rows and the admissible
output lists: any permutation of the groups that is ordered by mean score. -/

/-- A row as seen by `get_subject_difficulty`; `score` is the value of the
chosen score column. -/
structure SubjRow where
  subject : Option String := none
  score : Option ℚ := none
  pass_fail : Option String := none
deriving DecidableEq

/-- One output row of `get_subject_difficulty`. -/
structure SubjGroup where
  subject : String
  avg_total_marks : ℚ
  exam_count : ℕ
  pass_rate : ℚ
deriving DecidableEq

/-- The priority list of candidate score columns of
`get_subject_difficulty`. -/
def scorePriority : List String :=
  ["total_theory_marks", "cia_theory_avg", "theory_percentage", "ese_theory_internal"]

/-- The first column of the priority list present in the table, the loop
`for col in [...]: if col in df.columns: score_col = col; break`. -/
def pickScoreCol (cols : List String) : Option String :=
  scorePriority.find? (fun c => cols.contains c)

/-- Rows kept by the two filters: subject not null, then score not null. -/
def validRows (rows : List SubjRow) : List SubjRow :=
  (rows.filter (fun r => r.subject.isSome)).filter (fun r => r.score.isSome)

/-- Group keys in order of first appearance among the valid rows. -/
def firstKeys (l : List String) : List String :=
  l.foldl (fun acc k => if acc.contains k then acc else acc ++ [k]) []

/-- The aggregated group of a subject key: mean of the (non-null) scores,
row count, and pass rate `mean(pass_fail == "pass") * 100`. -/
def groupFor (rows : List SubjRow) (k : String) : SubjGroup :=
  let grp := (validRows rows).filter (fun r => r.subject = some k)
  let scores := grp.filterMap (fun r => r.score)
  let passes := grp.filter (fun r => pfNorm r.pass_fail = "pass")
  { subject := k
    avg_total_marks := scores.sum / scores.length
    exam_count := grp.length
    pass_rate := (passes.length : ℚ) / grp.length * 100 }

/-- The multiset of aggregated groups, keyed in first-appearance order.
The actual group order produced by polars is unspecified; downstream
facts only use this list up to permutation. -/
def difficultyGroups (rows : List SubjRow) : List SubjGroup :=
  (firstKeys ((validRows rows).filterMap (fun r => r.subject))).map (groupFor rows)

/-- Adjacent-pairs check: every element is related to its successor. -/
def chainB {α : Type} (le : α → α → Bool) : List α → Bool
  | [] => true
  | [_] => true
  | a :: b :: t => le a b && chainB le (b :: t)

/-- Admissible outputs for category `hardest` (and for the default sort of
`get_subject_difficulty`): some permutation of the groups that is
ascending in mean score. -/
def hardestRanking (rows : List SubjRow) (out : List SubjGroup) : Prop :=
  List.Perm out (difficultyGroups rows) ∧
    chainB (fun a b => decide (a.avg_total_marks ≤ b.avg_total_marks)) out = true

/-- Admissible outputs for category `easiest`: descending in mean score. -/
def easiestRanking (rows : List SubjRow) (out : List SubjGroup) : Prop :=
  List.Perm out (difficultyGroups rows) ∧
    chainB (fun a b => decide (b.avg_total_marks ≤ a.avg_total_marks)) out = true

/-! ### Trend direction (`api/routes/analytics.py`, `get_trends`)

The yearly groups are sorted by `exam_year`; each reported value is the
metric rounded to two decimals with Python `round` (half to even); the
direction compares the last reported value against the first one. -/

/-- One per-year group with the metric value for the requested entity. -/
structure YearStat where
  year : ℤ
  value : ℚ
deriving DecidableEq

/-- Python `round` to an integer: half-to-even. -/
def roundHalfEven (x : ℚ) : ℤ :=
  let f : ℤ := ⌊x⌋
  let frac : ℚ := x - f
  if frac < 1 / 2 then f
  else if 1 / 2 < frac then f + 1
  else if f % 2 = 0 then f else f + 1

/-- Python `round(x, 2)`. -/
def round2 (x : ℚ) : ℚ :=
  (roundHalfEven (x * 100) : ℚ) / 100

/-- The `trends` list: groups sorted by year, values rounded to two
decimals.  The group keys are distinct years, so any polars sort of them
agrees with an insertion sort. -/
def buildTrends (l : List YearStat) : List YearStat :=
  (List.insertionSort (fun a b => a.year ≤ b.year) l).map
    (fun s => ⟨s.year, round2 s.value⟩)

/-- Function `trend_direction`: with more than one year, compare the last reported
value against the first; otherwise `stable`. -/
def trend_direction (l : List YearStat) : String :=
  let t := buildTrends l
  if 1 < t.length then
    let first : ℚ := ((t.head?).map (fun s => s.value)).getD 0
    let last : ℚ := ((t.getLast?).map (fun s => s.value)).getD 0
    if first < last then "upward"
    else if last < first then "downward"
    else "stable"
  else "stable"

/-- Function `trend_change`: `round(last_val - first_val, 2)` with more than one
year, otherwise `0`. -/
def trend_change (l : List YearStat) : ℚ :=
  let t := buildTrends l
  if 1 < t.length then
    round2 ((((t.getLast?).map (fun s => s.value)).getD 0)
      - (((t.head?).map (fun s => s.value)).getD 0))
  else 0

/-! ### Filtering (`data/processor.py`, `filter_data`) -/

/-- The columns `filter_data` reads. -/
structure FilterRow where
  exam_year : Option ℤ := none
  department : Option String := none
  semester : Option ℤ := none
  subject : Option String := none
deriving DecidableEq

/-- The shape of the `year_range` argument after the type dispatch of
`filter_data`: a list of at least two numbers (first two are used), a
single year, an invalid value (filter skipped with a warning), or no
filter (`None`, `[]`, `"All"`). -/
inductive YearRangeArg where
  | noRange
  | range (lo hi : ℚ)
  | single (y : ℤ)
  | invalid
deriving DecidableEq

/-- Function `filter_data`: year filter, then department, semester and subject
equality filters; comparisons against a null cell are null, hence
dropped.  `semester = none` stands for `"All"`, `None` or `""`. -/
def filter_data (rows : List FilterRow) (year_range : YearRangeArg)
    (department : String) (semester : Option ℤ) (subject : String) :
    List FilterRow :=
  let f1 :=
    match year_range with
    | .range lo hi =>
        rows.filter (fun r =>
          match r.exam_year with
          | some y => decide (lo ≤ (y : ℚ)) && decide ((y : ℚ) ≤ hi)
          | none => false)
    | .single y => rows.filter (fun r => r.exam_year = some y)
    | _ => rows
  let f2 :=
    if department ≠ "" ∧ department ≠ "All" then
      f1.filter (fun r => r.department = some department)
    else f1
  let f3 :=
    match semester with
    | some s => f2.filter (fun r => r.semester = some s)
    | none => f2
  if subject ≠ "" ∧ subject ≠ "All" then
    f3.filter (fun r => r.subject = some subject)
  else f3

/-! ### Load-and-classify pipeline (`api/dependencies.py`, `get_dataframe`;
`data/loader.py`, `load_data` and `_create_sample_data`)

`get_dataframe` loads the source table, derives the metric columns and
classifies performance, caching the result; `reload_data` clears the cache
so a later access rebuilds.  When no source file is available the loader
falls back to `_create_sample_data`, which draws every column from the
unseeded global NumPy random generator.  The generator is made explicit
here as a stream `ℕ → ℕ` of raw draws: each vectorised `np.random` call
of the source consumes its own block of the stream, and a rebuild in the
real program observes a different stream state. -/

/-- A canonical record of the modelled pipeline output. -/
structure CanonRow where
  student_id : Option String := none
  subject : Option String := none
  department : Option String := none
  exam_year : Option ℤ := none
  semester : Option ℤ := none
  cia_theory_avg : Option ℚ := none
  cia_practical_avg : Option ℚ := none
  ese_theory_internal : Option ℚ := none
  ese_practical_internal : Option ℚ := none
  total_theory_marks : Option ℚ := none
  total_practical_marks : Option ℚ := none
  performance : Option String := none
deriving DecidableEq

/-- The classifier columns of a raw row, handed to
`add_performance_column`. -/
def toPerfRow (r : RawRow) : PerfRow :=
  { pass_fail := r.pass_fail
    theory_percentage := r.theory_percentage
    practical_percentage := r.practical_percentage
    theory_result := r.theory_result
    theory_internal_result := r.theory_internal_result
    practical_result := r.practical_result
    practical_internal_result := r.practical_internal_result }

/-- One canonical record: the derived metric columns of
`_add_derived_columns` plus the `performance` classification. -/
def canonRow (r : RawRow) : CanonRow :=
  { student_id := r.student_id
    subject := r.subject
    department := r.department
    exam_year := r.exam_year
    semester := r.semester
    cia_theory_avg := cia_theory_avg r
    cia_practical_avg := cia_practical_avg r
    ese_theory_internal := ese_theory_internal r
    ese_practical_internal := ese_practical_internal r
    total_theory_marks := total_theory_marks r
    total_practical_marks := total_practical_marks r
    performance := performance (toPerfRow r) }

/-- Draw of `np.random.choice(opts, n)` number `i`: an option indexed by the
raw stream value. -/
def npChoice (opts : List ℤ) (draw : ℕ) : ℤ :=
  opts.getD (draw % opts.length) 0

/-- As `npChoice`, for string option lists. -/
def npChoiceStr (opts : List String) (draw : ℕ) : String :=
  opts.getD (draw % opts.length) ""

/-- Draw of `np.random.uniform(lo, hi, n)` number `i`, as a deterministic
function of the raw stream value: some point of `[lo, hi)`. -/
def npUniform (lo hi : ℚ) (draw : ℕ) : ℚ :=
  lo + (draw % 1000 : ℚ) * (hi - lo) / 1000

/-- Left padding of `_create_sample_data` student ids (`f"ST{i:05d}"`). -/
def sampleId (i : ℕ) : String :=
  let s := toString i
  "ST" ++ String.mk (List.replicate (5 - s.length) '0') ++ s

/-- Row `i` of `_create_sample_data`: the department, subject, year,
semester and mark columns are random draws; each `np.random` call uses
its own block of 1000 stream positions; `performance` is assigned from
`total_theory_marks` by the 85/50 thresholds of the sample generator.
The practical columns do not exist in the sample table. -/
def mkSampleRow (rng : ℕ → ℕ) (i : ℕ) : CanonRow :=
  let subjects := ["Mathematics", "Physics", "Chemistry", "Business Studies", "Economics"]
  let departments := ["LIFE SCIENCES", "BUSINESS AND MANAGEMENT", "COMMERCE", "COMPUTER SCIENCE"]
  let ttm : ℚ := npUniform 30 100 (rng (6000 + i))
  { student_id := some (sampleId i)
    subject := some (npChoiceStr subjects (rng i))
    department := some (npChoiceStr departments (rng (1000 + i)))
    exam_year := some (npChoice [2019, 2020, 2021, 2022, 2023] (rng (2000 + i)))
    semester := some (npChoice [1, 2, 3, 4, 5, 6, 7, 8] (rng (3000 + i)))
    cia_theory_avg := some (npUniform 10 30 (rng (4000 + i)))
    ese_theory_internal := some (npUniform 20 70 (rng (5000 + i)))
    total_theory_marks := some ttm
    performance :=
      if 85 ≤ ttm then some "Distinction"
      else if 50 ≤ ttm then some "Pass"
      else some "Fail" }

/-- The sample rows for indices `i, i+1, ...`, `fuel` many. -/
def sampleRowsFrom (rng : ℕ → ℕ) (i : ℕ) : ℕ → List CanonRow
  | 0 => []
  | fuel + 1 => mkSampleRow rng i :: sampleRowsFrom rng (i + 1) fuel

/-- `_create_sample_data`: 1000 sample records drawn from the stream. -/
def create_sample_data (rng : ℕ → ℕ) : List CanonRow :=
  sampleRowsFrom rng 0 1000

/-- The load-and-classify pipeline of `get_dataframe`: with a source table
the canonical records are a pure function of the rows.  Without one,
`load_data` falls back to `create_sample_data`, but the sample frame has
no `pass_fail`, `theory_percentage` or `practical_percentage` columns,
all three of which `add_performance_column` references unconditionally
through `pl.col(...)`; its `with_columns` therefore raises
`ColumnNotFoundError`, the freshly drawn frame is discarded by the
exception, and no canonical table is built. -/
def loadAndClassify (src : Option (List RawRow)) (rng : ℕ → ℕ) :
    Except String (List CanonRow) :=
  match src with
  | some rows => .ok (rows.map canonRow)
  | none =>
    let _ := create_sample_data rng
    .error "ColumnNotFoundError: pass_fail"

/-- The ordered candidate lists of `_validate_and_process` for column
resolution. -/
def columnVariants : List (String × List String) :=
  [("student_id", ["student_id", "studentid"]),
   ("subject", ["subject", "subject_name", "name"]),
   ("department", ["department", "dept", "offering_department"]),
   ("exam_name", ["exam_name", "exam"]),
   ("student_name", ["student_name", "name"]),
   ("course_name", ["course_name", "course"])]

/-- Column resolution, field after field: the first candidate raw name
present in the current column set wins (`for variant in variants: if
variant in df.columns: ... break`), and the matched column is renamed to
the canonical name for the remaining fields (`df = df.rename({variant:
std_col})` when the names differ), so a consumed raw name cannot resolve
a later field. -/
def resolveColumnsAux :
    List String → List (String × List String) → List (String × Option String)
  | _, [] => []
  | cols, (std, variants) :: rest =>
    match variants.find? (fun v => cols.contains v) with
    | some v =>
      (std, some v) ::
        resolveColumnsAux
          (if v = std then cols else cols.map (fun c => if c = v then std else c))
          rest
    | none => (std, none) :: resolveColumnsAux cols rest

/-- Column resolution of `_validate_and_process` over the raw column set. -/
def resolveColumns (cols : List String) : List (String × Option String) :=
  resolveColumnsAux cols columnVariants

/-! ## Theorems -/

/-- Claim C1: the Fail classification has top priority: a record whose
`pass_fail` normalises to `fail`, or with some present result column
triggering the failure/suspension override (and not matching the
Not Applicable sentinel), is classified `Fail`, whatever its percentages
are — in particular even when the combined percentage reaches the
Distinction threshold. -/
theorem C1_fail_priority (r : PerfRow)
    (h : pfNorm r.pass_fail = "fail" ∨ anyResultFail r = true) :
    performance r = some "Fail" := by
  rw [performance_char]
  rcases h with h | h
  · by_cases ha : anyResultFail r
    · simp [ha]
    · simp [ha, baseExpr, h]
  · simp [h]

/-- The concrete record of the claim: `pass_fail = "fail"` with a combined
percentage of 95. -/
def c1Row : PerfRow :=
  { pass_fail := some "fail", theory_percentage := some 95 }

/-- Witness for C1: the record with `pass_fail = "fail"` and total
percentage 95 classifies as `Fail`, not `Distinction`. -/
theorem C1_fail_priority_witness : performance c1Row = some "Fail" :=
  C1_fail_priority c1Row (Or.inl (by decide))

/-- Claim C2: among records not classified `Fail`, `Distinction` holds
exactly when the null-filled sum of the two percentage columns reaches 80
(inclusive threshold); a non-Fail record below the threshold is `Pass`
exactly when `pass_fail` normalises to `pass`, and unclassified (null)
otherwise. -/
theorem C2_distinction_threshold (r : PerfRow)
    (hnf : performance r ≠ some "Fail") :
    (performance r = some "Distinction" ↔ 80 ≤ totalPct r) ∧
    (performance r ≠ some "Distinction" →
      (performance r = some "Pass" ↔ pfNorm r.pass_fail = "pass") ∧
      (pfNorm r.pass_fail ≠ "pass" → performance r = none)) := by
  rw [performance_char] at hnf ⊢
  by_cases ha : anyResultFail r
  · simp [ha] at hnf
  · simp only [ha, Bool.false_eq_true, if_false] at hnf ⊢
    unfold baseExpr
    by_cases hf : pfNorm r.pass_fail = "fail"
    · simp [baseExpr, hf] at hnf
    · by_cases hd : (80 : ℚ) ≤ totalPct r
      · simp [hf, hd]
      · by_cases hp : pfNorm r.pass_fail = "pass" <;> simp [hf, hd, hp]

/-- A record at exactly the threshold: total percentage 80. -/
def c2RowAt : PerfRow :=
  { pass_fail := some "pass", theory_percentage := some 80 }

/-- A record just below the threshold: total percentage 79.99. -/
def c2RowBelow : PerfRow :=
  { pass_fail := some "pass", theory_percentage := some (7999 / 100) }

/-- Witness for C2: a non-Fail record with total percentage exactly 80 is
`Distinction` while one with 79.99 is not. -/
theorem C2_distinction_threshold_witness :
    performance c2RowAt = some "Distinction" ∧
      ¬ performance c2RowBelow = some "Distinction" := by
  constructor
  · exact ((C2_distinction_threshold c2RowAt (by decide)).1).mpr (by decide)
  · intro hd
    have h80 := ((C2_distinction_threshold c2RowBelow (by decide)).1).mp hd
    revert h80
    decide

/-- Claim C10: `add_performance_column` preserves the rows of the table
one-for-one, and the appended `performance` value of every row is null,
`Fail`, `Distinction` or `Pass` — nothing else. -/
theorem C10_performance_range (rows : List PerfRow) :
    (add_performance_column rows).length = rows.length ∧
    ∀ p ∈ add_performance_column rows,
      p.2 = none ∨ p.2 = some "Fail" ∨ p.2 = some "Distinction" ∨
        p.2 = some "Pass" := by
  constructor
  · simp [add_performance_column]
  · intro p hp
    simp only [add_performance_column, List.mem_map] at hp
    obtain ⟨r, _, rfl⟩ := hp
    show performance r = none ∨ performance r = some "Fail" ∨
      performance r = some "Distinction" ∨ performance r = some "Pass"
    rw [performance_char]
    by_cases ha : anyResultFail r
    · simp [ha]
    · simp only [ha, Bool.false_eq_true, if_false]
      unfold baseExpr
      by_cases h1 : pfNorm r.pass_fail = "fail" <;>
        by_cases h2 : (80 : ℚ) ≤ totalPct r <;>
          by_cases h3 : pfNorm r.pass_fail = "pass" <;> simp [h1, h2, h3]

/-- A record with an unclassifiable outcome text. -/
def c10Row : PerfRow :=
  { pass_fail := some "absent", theory_percentage := some 10 }

/-- Witness for C10: the classification of a concrete unclassifiable
record stays within the allowed value set. -/
theorem C10_performance_range_witness :
    ((c10Row, performance c10Row) : PerfRow × Option String).2 = none ∨
      (c10Row, performance c10Row).2 = some "Fail" ∨
      (c10Row, performance c10Row).2 = some "Distinction" ∨
      (c10Row, performance c10Row).2 = some "Pass" :=
  (C10_performance_range [c10Row]).2 (c10Row, performance c10Row)
    (by simp [add_performance_column])

/-- Claim C3: in the new-format derivation (no legacy per-CIA columns and
no pre-existing derived column), a present credit-qualifier column equal
to 0 forces the corresponding derived percentage to null, whatever the
raw percentage cell contains. -/
theorem C3_zero_credit_null (r : RawRow) (cell : RawCell) :
    (r.cia_practical_cols = none → r.practical_internal_percentage = some cell →
      r.practical_credit = some (some 0) → cia_practical_avg r = none) ∧
    (r.ese_practical_internal_col = none → r.practical_ese_percentage = some cell →
      r.practical_credit = some (some 0) → ese_practical_internal r = none) ∧
    (r.cia_theory_cols = none → r.theory_internal_percentage = some cell →
      r.theory_credit = some (some 0) → cia_theory_avg r = none) ∧
    (r.ese_theory_internal_col = none → r.theory_ese_percentage = some cell →
      r.theory_credit = some (some 0) → ese_theory_internal r = none) := by
  refine ⟨?_, ?_, ?_, ?_⟩ <;> intro h1 h2 h3 <;>
    simp [cia_practical_avg, ese_practical_internal, cia_theory_avg,
      ese_theory_internal, h1, h2, h3, creditPos]

/-- A theory-and-practical record with zero credits on both sides and
non-zero raw percentage cells. -/
def c3Row : RawRow :=
  { practical_internal_percentage := some (.num 37)
    practical_ese_percentage := some (.num 41)
    theory_internal_percentage := some (.num 43)
    theory_ese_percentage := some (.num 47)
    theory_credit := some (some 0)
    practical_credit := some (some 0) }

/-- Witness for C3: with both credit columns at 0 the four derived
percentages of a concrete record carrying non-zero raw values are null. -/
theorem C3_zero_credit_null_witness :
    cia_practical_avg c3Row = none ∧ ese_practical_internal c3Row = none ∧
      cia_theory_avg c3Row = none ∧ ese_theory_internal c3Row = none :=
  ⟨(C3_zero_credit_null c3Row (.num 37)).1 rfl rfl rfl,
   (C3_zero_credit_null c3Row (.num 41)).2.1 rfl rfl rfl,
   (C3_zero_credit_null c3Row (.num 43)).2.2.1 rfl rfl rfl,
   (C3_zero_credit_null c3Row (.num 47)).2.2.2 rfl rfl rfl⟩

/-- Claim C4: `calculate_rates` of an empty table is the tuple of five
zeros: zero pass, distinction and fail rates, zero students, zero exams —
no division is attempted. -/
theorem C4_empty_rates :
    calculate_rates ([] : List RatesRow) = (0, 0, 0, 0, 0) := rfl

/-- Claim C8: when the totals are derived (no pre-existing total column),
`total_theory_marks` is the sum of `cia_theory_avg` and
`ese_theory_internal` exactly when both are non-null, and is null whenever
either addend is null; likewise for `total_practical_marks` from the
practical components. -/
theorem C8_total_null_propagation (r : RawRow)
    (ht : r.total_theory_marks_col = none)
    (hp : r.total_practical_marks_col = none) :
    ((cia_theory_avg r = none ∨ ese_theory_internal r = none) →
      total_theory_marks r = none) ∧
    (∀ a b : ℚ, cia_theory_avg r = some a → ese_theory_internal r = some b →
      total_theory_marks r = some (a + b)) ∧
    ((cia_practical_avg r = none ∨ ese_practical_internal r = none) →
      total_practical_marks r = none) ∧
    (∀ a b : ℚ, cia_practical_avg r = some a → ese_practical_internal r = some b →
      total_practical_marks r = some (a + b)) := by
  refine ⟨?_, ?_, ?_, ?_⟩
  · rintro (h | h)
    · simp [total_theory_marks, ht, h, optAdd]
    · cases hc : cia_theory_avg r <;>
        simp [total_theory_marks, ht, h, hc, optAdd]
  · intro a b ha hb
    simp [total_theory_marks, ht, ha, hb, optAdd]
  · rintro (h | h)
    · simp [total_practical_marks, hp, h, optAdd]
    · cases hc : cia_practical_avg r <;>
        simp [total_practical_marks, hp, h, hc, optAdd]
  · intro a b ha hb
    simp [total_practical_marks, hp, ha, hb, optAdd]

/-- A record whose theory external component is missing but whose
practical components are both present. -/
def c8Row : RawRow :=
  { cia_theory_avg_col := some (some 40)
    cia_practical_avg_col := some (some 50)
    ese_practical_internal_col := some (some 40) }

/-- Witness for C8: on a concrete record the theory total is null because
the external theory component is null, while the practical total is the
sum 50 + 40. -/
theorem C8_total_null_propagation_witness :
    total_theory_marks c8Row = none ∧
      total_practical_marks c8Row = some 90 := by
  constructor
  · exact (C8_total_null_propagation c8Row rfl rfl).1 (Or.inr rfl)
  · have h := (C8_total_null_propagation c8Row rfl rfl).2.2.2 50 40 rfl rfl
    rw [h]
    norm_num

/-- Claim C7: with the other filters at their `All` defaults, the year
range filter `[lo, hi]` keeps exactly the records whose `exam_year` lies
between the bounds, both inclusive; on a concrete pair of records the
range `[2020, 2022]` drops the year 2019 and keeps the year 2022. -/
theorem C7_year_range_filter :
    (∀ (rows : List FilterRow) (lo hi : ℚ) (r : FilterRow),
      r ∈ filter_data rows (.range lo hi) "All" none "All" ↔
        r ∈ rows ∧ ∃ y : ℤ, r.exam_year = some y ∧ lo ≤ (y : ℚ) ∧ (y : ℚ) ≤ hi) ∧
    filter_data [{ exam_year := some 2019 }, { exam_year := some 2022 }]
        (.range 2020 2022) "All" none "All" = [{ exam_year := some 2022 }] := by
  constructor
  · intro rows lo hi r
    have hrw : filter_data rows (.range lo hi) "All" none "All" =
        rows.filter (fun r =>
          match r.exam_year with
          | some y => decide (lo ≤ (y : ℚ)) && decide ((y : ℚ) ≤ hi)
          | none => false) := by
      simp [filter_data]
    rw [hrw, List.mem_filter]
    cases hy : r.exam_year with
    | none => simp [hy]
    | some y => simp [hy]
  · decide

theorem perm_pair_eq {α : Type} [DecidableEq α] {l : List α} {a b : α}
    (h : List.Perm l [a, b]) : l = [a, b] ∨ l = [b, a] := by
  cases l with
  | nil => simpa using h.length_eq
  | cons x t =>
    cases t with
    | nil => simpa using h.length_eq
    | cons y t2 =>
      cases t2 with
      | cons z t3 => simpa using h.length_eq
      | nil =>
        have hx : x = a ∨ x = b := by
          simpa using h.mem_iff.mp (show x ∈ [x, y] by simp)
        by_cases hxa : x = a
        · have h2 : List.Perm [y] [b] := by
            subst hxa
            exact h.cons_inv
          have hyb : y = b := by
            simpa using h2.mem_iff.mp (show y ∈ [y] by simp)
          exact Or.inl (by rw [hxa, hyb])
        · have hxb : x = b := by
            rcases hx with h1 | h1
            · exact absurd h1 hxa
            · exact h1
          have hy : y = a ∨ y = b := by
            simpa using h.mem_iff.mp (show y ∈ [x, y] by simp)
          have hya : y = a := by
            rcases hy with h1 | h1
            · exact h1
            · exfalso
              have hab : ¬ a = b := fun hab => hxa (hxb.trans hab.symm)
              have hc := h.count_eq a
              rw [hxb, h1] at hc
              simp [List.count_cons, hab, fun hba : b = a => hab hba.symm] at hc
          exact Or.inr (by rw [hxb, hya])

/-- The two-subject scenario of the claim: subject A with mean 60 over 10
records, subject B with mean 40 over 5 records. -/
def subjRowsScenario : List SubjRow :=
  List.replicate 10 { subject := some "A", score := some 60, pass_fail := some "pass" } ++
    List.replicate 5 { subject := some "B", score := some 40, pass_fail := some "fail" }

/-- The aggregated group of subject A in the scenario. -/
def groupA : SubjGroup :=
  { subject := "A", avg_total_marks := 60, exam_count := 10, pass_rate := 100 }

/-- The aggregated group of subject B in the scenario. -/
def groupB : SubjGroup :=
  { subject := "B", avg_total_marks := 40, exam_count := 5, pass_rate := 0 }

/-- Claim C5, amended: the ranking groups by subject, averages the first
available score column of the fixed priority list, and orders `hardest`
ascending and `easiest` descending by mean score, so the scenario with
means 40 and 60 yields `[B, A]` for `hardest` (and `[A, B]` for
`easiest`) under every admissible output; the relative order of subjects
with equal mean score is unspecified, because `group_by` and `sort` are
called without `maintain_order`. -/
theorem C5_difficulty_order :
    (∀ out : List SubjGroup, hardestRanking subjRowsScenario out →
      out.map (fun g => g.subject) = ["B", "A"]) ∧
    (∀ out : List SubjGroup, easiestRanking subjRowsScenario out →
      out.map (fun g => g.subject) = ["A", "B"]) ∧
    pickScoreCol ["student_id", "subject", "total_theory_marks", "pass_fail"] =
      some "total_theory_marks" ∧
    pickScoreCol ["student_id", "subject", "cia_theory_avg", "theory_percentage"] =
      some "cia_theory_avg" := by
  have hg : difficultyGroups subjRowsScenario = [groupA, groupB] := by decide
  refine ⟨?_, ?_, by decide, by decide⟩
  · rintro out ⟨hp, hc⟩
    rw [hg] at hp
    rcases perm_pair_eq hp with h | h
    · subst h
      exact absurd hc (by decide)
    · subst h
      rfl
  · rintro out ⟨hp, hc⟩
    rw [hg] at hp
    rcases perm_pair_eq hp with h | h
    · subst h
      rfl
    · subst h
      exact absurd hc (by decide)

/-- Witness for C5: the admissible hardest ranking `[B, A]` of the
scenario indeed reports the subjects in the order `[B, A]`. -/
theorem C5_difficulty_order_witness :
    ([groupB, groupA] : List SubjGroup).map (fun g => g.subject) = ["B", "A"] :=
  (C5_difficulty_order).1 [groupB, groupA] (by constructor <;> decide)

/-- Two subjects with the same mean score, A appearing first in the
source rows. -/
def tieRows : List SubjRow :=
  [{ subject := some "A", score := some 50, pass_fail := some "pass" },
   { subject := some "B", score := some 50, pass_fail := some "pass" }]

/-- The aggregated group of subject A among the tied rows. -/
def tieGroupA : SubjGroup :=
  { subject := "A", avg_total_marks := 50, exam_count := 1, pass_rate := 100 }

/-- The aggregated group of subject B among the tied rows. -/
def tieGroupB : SubjGroup :=
  { subject := "B", avg_total_marks := 50, exam_count := 1, pass_rate := 100 }

/-- Counterexample to the stability part of C5: with two subjects of
equal mean score, the output `[B, A]` is an admissible hardest ranking —
`group_by` and `sort` are called without `maintain_order`, so nothing
pins ties to the original row order `[A, B]`. -/
theorem C5_stability_counterexample :
    hardestRanking tieRows [tieGroupB, tieGroupA] ∧
      ([tieGroupB, tieGroupA] : List SubjGroup).map (fun g => g.subject) ≠ ["A", "B"] :=
  ⟨by constructor <;> decide, by decide⟩

theorem head?_map {α β : Type} (f : α → β) (l : List α) :
    (l.map f).head? = l.head?.map f := by
  cases l <;> rfl

theorem getLast?_map {α β : Type} (f : α → β) (l : List α) :
    (l.map f).getLast? = l.getLast?.map f := by
  induction l with
  | nil => rfl
  | cons a t ih =>
    cases t with
    | nil => rfl
    | cons b t2 =>
      simp only [List.map_cons] at ih ⊢
      rw [List.getLast?_cons_cons, ih, List.getLast?_cons_cons]

theorem roundHalfEven_intCast (n : ℤ) : roundHalfEven ((n : ℚ)) = n := by
  simp only [roundHalfEven, Int.floor_intCast, sub_self]
  norm_num

theorem round2_sub_round2 (a b : ℚ) :
    round2 (round2 a - round2 b) = round2 a - round2 b := by
  unfold round2
  have h : (((roundHalfEven (a * 100) : ℤ) : ℚ) / 100 -
      ((roundHalfEven (b * 100) : ℤ) : ℚ) / 100) * 100 =
      ((roundHalfEven (a * 100) - roundHalfEven (b * 100) : ℤ) : ℚ) := by
    push_cast
    ring
  rw [h, roundHalfEven_intCast]
  push_cast
  ring

/-- Claim C6: for a trend of at least two year groups, the direction is
`upward` exactly when the reported value of the latest year strictly
exceeds the reported value of the earliest year, `downward` when it is
strictly below, `stable` when equal, and the reported change is the
latest value minus the earliest value; with fewer than two years the
direction is `stable` and the change is 0. -/
theorem C6_trend_two_point :
    (∀ (l : List YearStat) (d e : YearStat),
      List.Sorted (fun a b : YearStat => a.year ≤ b.year) l →
      2 ≤ l.length →
      l.head? = some d → l.getLast? = some e →
      ((trend_direction l = "upward" ↔ round2 d.value < round2 e.value) ∧
       (trend_direction l = "downward" ↔ round2 e.value < round2 d.value) ∧
       (trend_direction l = "stable" ↔ round2 d.value = round2 e.value) ∧
       trend_change l = round2 e.value - round2 d.value)) ∧
    (∀ l : List YearStat, l.length < 2 →
      trend_direction l = "stable" ∧ trend_change l = 0) := by
  constructor
  · intro l d e hs h2 hd he
    have hbt : buildTrends l = l.map (fun s => ⟨s.year, round2 s.value⟩) := by
      unfold buildTrends
      rw [hs.insertionSort_eq]
    have hlen : 1 < (buildTrends l).length := by
      rw [hbt, List.length_map]
      omega
    have hhead : ((buildTrends l).head?.map (fun s => s.value)).getD 0 =
        round2 d.value := by
      rw [hbt, head?_map, hd]
      rfl
    have hlast : ((buildTrends l).getLast?.map (fun s => s.value)).getD 0 =
        round2 e.value := by
      rw [hbt, getLast?_map, he]
      rfl
    unfold trend_direction trend_change
    simp only [hlen, if_true, hhead, hlast]
    refine ⟨?_, ?_, ?_, round2_sub_round2 e.value d.value⟩ <;>
      rcases lt_trichotomy (round2 d.value) (round2 e.value) with h | h | h
    · rw [if_pos h]
      exact ⟨fun _ => h, fun _ => rfl⟩
    · rw [if_neg (by rw [h]; exact lt_irrefl _), if_neg (by rw [h]; exact lt_irrefl _)]
      exact iff_of_false (by decide) (by rw [h]; exact lt_irrefl _)
    · rw [if_neg (lt_asymm h), if_pos h]
      exact iff_of_false (by decide) (lt_asymm h)
    · rw [if_pos h]
      exact iff_of_false (by decide) (lt_asymm h)
    · rw [if_neg (by rw [h]; exact lt_irrefl _), if_neg (by rw [h]; exact lt_irrefl _)]
      exact iff_of_false (by decide) (by rw [h]; exact lt_irrefl _)
    · rw [if_neg (lt_asymm h), if_pos h]
      exact ⟨fun _ => h, fun _ => rfl⟩
    · rw [if_pos h]
      exact iff_of_false (by decide) (ne_of_lt h)
    · rw [if_neg (by rw [h]; exact lt_irrefl _), if_neg (by rw [h]; exact lt_irrefl _)]
      exact iff_of_true rfl h
    · rw [if_neg (lt_asymm h), if_pos h]
      exact iff_of_false (by decide) (ne_of_gt h)
  · intro l hl
    have hlen : ¬ 1 < (buildTrends l).length := by
      unfold buildTrends
      rw [List.length_map, List.length_insertionSort]
      omega
    unfold trend_direction trend_change
    simp [hlen]

/-- The per-year values of the claim scenario: 70, 75, 72 for three
consecutive years. -/
def trendScenario : List YearStat :=
  [⟨2020, 70⟩, ⟨2021, 75⟩, ⟨2022, 72⟩]

/-- Witness for C6: the scenario `[70, 75, 72]` reports direction
`upward` with change `+2`. -/
theorem C6_trend_two_point_witness :
    trend_direction trendScenario = "upward" ∧ trend_change trendScenario = 2 := by
  have h := (C6_trend_two_point).1 trendScenario ⟨2020, 70⟩ ⟨2022, 72⟩
    (by decide) (by decide) rfl rfl
  exact ⟨h.1.mpr (by decide), h.2.2.2.trans (by decide)⟩

/-- Claim C9: the load-and-classify pipeline is deterministic.  Its
outcome does not depend on the hidden random-generator state: with a
source table present, two rebuilds (as after `reload_data` clears the
cache) yield the identical canonical table, a pure function of the
source rows; without a source, every rebuild deterministically fails —
`add_performance_column` raises on the sample frame, which lacks the
classifier columns, so no canonical table is produced and the drawn
sample data never escapes — hence no two runs over an unchanged source
can ever disagree on a canonical table.  Column resolution is likewise a
pure function of the input column set. -/
theorem C9_pipeline_determinism :
    (∀ (src : Option (List RawRow)) (rng1 rng2 : ℕ → ℕ),
      loadAndClassify src rng1 = loadAndClassify src rng2) ∧
    (∀ (rows : List RawRow) (rng : ℕ → ℕ),
      loadAndClassify (some rows) rng = .ok (rows.map canonRow)) ∧
    (∀ (rng : ℕ → ℕ) (table : List CanonRow),
      loadAndClassify none rng ≠ .ok table) ∧
    (∀ cols1 cols2 : List String, cols1 = cols2 →
      resolveColumns cols1 = resolveColumns cols2) :=
  ⟨fun src _ _ => by cases src <;> rfl,
   fun _ _ => rfl,
   fun _ _ h => Except.noConfusion h,
   fun _ _ h => by rw [h]⟩

/-- Witness for C9: two resolutions of the same concrete column set agree. -/
theorem C9_pipeline_determinism_witness :
    resolveColumns ["studentid", "name", "dept"] =
      resolveColumns ["studentid", "name", "dept"] :=
  (C9_pipeline_determinism).2.2.2 _ _ rfl

end Spec2Proof
